import Mathlib

/-!
Verification of the STM32F746 clock-configuration module
(`system_stm32f746.c` / `system_stm32f746.h`).

The C module is shallowly embedded:
* pure helper functions (`iabs`, the power-of-two search loops, `FindHPRE`,
  the flash wait-state table lookup, `SystemCheckPLLConfiguration`,
  `CalculateMainPLLOutFrequency`) become Lean functions on `Nat`/`Int`,
  with C unsigned arithmetic modelled as `Nat` and C `int` as `Int`,
  inserting `% 2 ^ 32` where the C code converts to `uint32_t`;
* the memory-mapped registers (RCC, FLASH) and the two process-wide
  variables (`SystemCoreClock`, `MainPLLConfigured`) become a record `MCU`;
  each register-writing function returns the new state together with the
  list of register writes it performed, so that ordering claims can be
  stated about the write trace;
* the hardware's behaviour is modelled quiescently: a busy-wait on a
  ready bit terminates immediately (the oscillator is assumed to become
  ready), and a read of the clock-switch status field SWS returns the
  last value written to the selection field SW (`swsOf`).

Register-field positions and masks are the CMSIS device-header values for
the STM32F746 (`stm32f746xx.h`), which the module includes.
-/

/-! Register-field constants (CMSIS `stm32f746xx.h`). -/

def RCC_CFGR_SW : Nat := 0x3
def RCC_CFGR_SW_HSI : Nat := 0
def RCC_CFGR_SW_HSE : Nat := 1
def RCC_CFGR_SW_PLL : Nat := 2
def RCC_CFGR_SWS : Nat := 0xC
def RCC_CFGR_SWS_HSI : Nat := 0x0
def RCC_CFGR_SWS_HSE : Nat := 0x4
def RCC_CFGR_SWS_PLL : Nat := 0x8
def RCC_CFGR_HPRE_Pos : Nat := 4
def RCC_CFGR_HPRE_Msk : Nat := 0xF0
def RCC_CFGR_PPRE1_Pos : Nat := 10
def RCC_CFGR_PPRE1_Msk : Nat := 0x1C00
def RCC_CFGR_PPRE2_Pos : Nat := 13
def RCC_CFGR_PPRE2_Msk : Nat := 0xE000

def RCC_PLLCFGR_PLLM_Pos : Nat := 0
def RCC_PLLCFGR_PLLM : Nat := 0x3F
def RCC_PLLCFGR_PLLN_Pos : Nat := 6
def RCC_PLLCFGR_PLLN : Nat := 0x7FC0
def RCC_PLLCFGR_PLLP_Pos : Nat := 16
def RCC_PLLCFGR_PLLP : Nat := 0x30000
def RCC_PLLCFGR_PLLSRC_Pos : Nat := 22
def RCC_PLLCFGR_PLLSRC : Nat := 0x400000
def RCC_PLLCFGR_PLLSRC_HSI : Nat := 0
def RCC_PLLCFGR_PLLQ_Pos : Nat := 24
def RCC_PLLCFGR_PLLQ : Nat := 0xF000000

def RCC_PLLSAICFGR_PLLSAIN : Nat := 0x7FC0
def RCC_PLLSAICFGR_PLLSAIN_Pos : Nat := 6
def RCC_PLLSAICFGR_PLLSAIP : Nat := 0x30000
def RCC_PLLSAICFGR_PLLSAIP_Pos : Nat := 16
def RCC_PLLSAICFGR_PLLSAIQ : Nat := 0xF000000
def RCC_PLLSAICFGR_PLLSAIQ_Pos : Nat := 24
def RCC_PLLSAICFGR_PLLSAIR : Nat := 0x70000000
def RCC_PLLSAICFGR_PLLSAIR_Pos : Nat := 28

def RCC_PLLI2SCFGR_PLLI2SN : Nat := 0x7FC0
def RCC_PLLI2SCFGR_PLLI2SN_Pos : Nat := 6
def RCC_PLLI2SCFGR_PLLI2SP : Nat := 0x30000
def RCC_PLLI2SCFGR_PLLI2SP_Pos : Nat := 16
def RCC_PLLI2SCFGR_PLLI2SQ : Nat := 0xF000000
def RCC_PLLI2SCFGR_PLLI2SQ_Pos : Nat := 24
def RCC_PLLI2SCFGR_PLLI2SR : Nat := 0x70000000
def RCC_PLLI2SCFGR_PLLI2SR_Pos : Nat := 28

def RCC_CR_HSION : Nat := 0x1
def RCC_CR_HSEON : Nat := 0x10000
def RCC_CR_HSEBYP : Nat := 0x40000
def RCC_CR_PLLON : Nat := 0x1000000
def RCC_CR_PLLSAION : Nat := 0x10000000
def RCC_CR_PLLI2SON : Nat := 0x4000000

def FLASH_ACR_LATENCY : Nat := 0xF
def FLASH_ACR_LATENCY_Pos : Nat := 0

/-! Board/chip constants (`system_stm32f746.h`): supply voltage in mV,
oscillator frequencies in Hz, maximal core frequency. -/

def VSUPPLY : Nat := 3300
def HSI_FREQ : Nat := 16000000
def HSE_FREQ : Nat := 25000000
def HCLKMAX : Nat := 216000000

def CLOCKSRC_HSI : Nat := RCC_CFGR_SWS_HSI
def CLOCKSRC_HSE : Nat := RCC_CFGR_SWS_HSE
def CLOCKSRC_PLL : Nat := RCC_CFGR_SWS_PLL

/-- MAXWAITSTATES: worst-case flash wait-state count, used when increasing
the clock frequency. -/
def MAXWAITSTATES : Nat := 9

/-- NOT32 models the C bitwise complement `~x` on a `uint32_t` operand. -/
def NOT32 (x : Nat) : Nat := 0xFFFFFFFF ^^^ x

/-- PLLConfiguration_t from `system_stm32f746.h`. -/
structure PLLConfiguration where
  source : Nat
  M : Nat
  N : Nat
  P : Nat
  Q : Nat
  R : Nat
deriving DecidableEq, Repr

/-- ClockConfiguration200MHz: the static 200 MHz preset the module uses when
the PLL is requested but not yet configured. -/
def ClockConfiguration200MHz : PLLConfiguration :=
  { source := CLOCKSRC_HSE, M := HSE_FREQ / 1000000, N := 400, P := 2, Q := 2, R := 2 }

/-- MainPLLConfiguration_200MHz: the exported 200 MHz preset. -/
def MainPLLConfiguration_200MHz : PLLConfiguration :=
  { source := CLOCKSRC_HSE, M := 25000000 / 1000000, N := 400, P := 2, Q := 2, R := 2 }

/-- iabs from the C source: absolute value of an `int`. -/
def iabs (k : Int) : Int := if k < 0 then -k else k

/-- lp2Aux embeds the common search loop of `SystemFindNearestPower2`,
`SystemFindLargestPower2` and their `...Exp` variants:
`for(i=0;i<20;i++){ int k=1<<i; int e=iabs(divisor-k); if(e>=err){i--;break;} err=e; n=k; }`.
`fuel` counts the iterations left (starting at 20), `i` is the C loop
variable (an `int`: it can end at `-1` when the first error already does
not improve), and the result is the pair `(i, n)` after the loop. -/
def lp2Aux (divisor : Int) : Nat → Int → Int → Int → Int × Int
  | 0, i, _, n => (i, n)
  | fuel + 1, i, err, n =>
    let k : Int := 2 ^ i.toNat
    let e : Int := iabs (divisor - k)
    if e ≥ err then (i - 1, n)
    else lp2Aux divisor fuel (i + 1) e k

/-- SystemFindLargestPower2: power of two that is ≥ the divisor
(the candidate from the nearest-power-of-two search, doubled when it is
below the input). -/
def SystemFindLargestPower2 (divisor : Nat) : Nat :=
  let r := lp2Aux divisor 20 0 10000000 1
  let n := r.2
  let n := if n < (divisor : Int) then n * 2 else n
  (n.emod (2 ^ 32)).toNat

/-- SystemFindLargestPower2Exp: exponent variant of the same search. -/
def SystemFindLargestPower2Exp (divisor : Nat) : Nat :=
  let r := lp2Aux divisor 20 0 10000000 1
  let i := r.1
  let n := r.2
  let i := if n < (divisor : Int) then i + 1 else i
  (i.emod (2 ^ 32)).toNat

/-- hpre_table: AHB prescaler decode table (no divide-by-32 entry). -/
def hpre_table : List Nat := [1, 1, 1, 1, 1, 1, 1, 1, 2, 4, 8, 16, 64, 128, 256, 512]

/-- ppre_table: APB prescaler decode table. -/
def ppre_table : List Nat := [1, 1, 1, 1, 2, 4, 8, 16]

/-- FindHPRE from the C source.  Note: the source assigns
`k = SystemFindLargestPower2(divisor)` (the power-of-two VALUE), although
its own comment says "2 exponent of divisor"; the arithmetic below then
treats `k` as an exponent.  The embedding reproduces the source as
written. -/
def FindHPRE (divisor : Nat) : Nat :=
  if divisor ≤ 1 then 0
  else if divisor ≥ 512 then 15
  else
    let k := SystemFindLargestPower2 divisor
    if k ≤ 1 then 0
    else if k < 5 then 8 + k - 1
    else if k = 5 then 12
    else 8 + k - 2

/-! Flash wait-state table (`flashwaitstates_tab`): rows ordered by
decreasing minimum voltage (mV); each row lists the maximum frequency (in
MHz, per Table 5 of the reference manual) allowed for 0, 1, 2, ... wait
states; a zero entry terminates a row, and an all-zero sentinel row ends
the table. -/

def row2700 : List Nat := [30, 60, 90, 120, 150, 180, 210, 216, 0, 0, 0]

def row2400 : List Nat := [24, 48, 72, 96, 120, 144, 168, 192, 216, 0, 0]

def row2100 : List Nat := [22, 44, 66, 88, 110, 132, 154, 176, 198, 216, 0]

def row1800 : List Nat := [20, 40, 60, 80, 100, 120, 140, 160, 180, 0, 0]

def flashwaitstates_tab : List (Nat × List Nat) :=
  [(2700, row2700), (2400, row2400), (2100, row2100), (1800, row1800),
   (0, [0, 0, 0, 0, 0, 0, 0, 0, 0, 0, 0])]

/-- findRow embeds the first loop of `FindFlashWaitStates`:
`for(i=0;tab[i].vmin && voltage<tab[i].vmin;i++){}` followed by the
`vmin==0` failure test; it returns the selected row's frequency array. -/
def findRow : List (Nat × List Nat) → Nat → Option (List Nat)
  | [], _ => none
  | (vmin, freqs) :: rest, voltage =>
    if vmin = 0 then none
    else if voltage < vmin then findRow rest voltage
    else some freqs

/-- findJ embeds the second loop of `FindFlashWaitStates`:
`for(j=0;freqmax[j] && freq>freqmax[j];j++){}` followed by the
`freqmax[j]==0` failure test; it returns the wait-state index `j`. -/
def findJ : List Nat → Nat → Option Nat
  | [], _ => none
  | x :: rest, freq =>
    if x = 0 then none
    else if freq > x then (findJ rest freq).map (· + 1)
    else some 0

/-- FindFlashWaitStates from the C source: `-1` on lookup failure,
otherwise the wait-state count. -/
def FindFlashWaitStates (freq voltage : Nat) : Int :=
  match findRow flashwaitstates_tab voltage with
  | none => -1
  | some row =>
    match findJ row freq with
    | none => -1
    | some j => (j : Int)

/-- SystemCheckPLLConfiguration from the C source.  Two slips of the
source are reproduced as written: the second test reads `M > 432` where
the range being checked is N's, and the R test returns `-4`, the same
code as the Q test. -/
def SystemCheckPLLConfiguration (cfg : PLLConfiguration) : Int :=
  if cfg.M < 2 ∨ cfg.M > 63 then -1
  else if cfg.N < 50 ∨ cfg.M > 432 then -2
  else if cfg.P ≠ 2 ∧ cfg.P ≠ 4 ∧ cfg.P ≠ 6 ∧ cfg.P ≠ 8 then -3
  else if cfg.Q < 2 ∨ cfg.Q > 15 then -4
  else if cfg.R ≠ 0 ∧ (cfg.R < 2 ∨ cfg.R > 7) then -4
  else 0

/-- CalculateMainPLLOutFrequency from the C source:
`(infreq*N)/M/P` computed in `uint64_t` and returned as `uint32_t`. -/
def CalculateMainPLLOutFrequency (cfg : PLLConfiguration) : Nat :=
  if cfg.source = CLOCKSRC_HSI then (HSI_FREQ * cfg.N / cfg.M / cfg.P) % 2 ^ 32
  else if cfg.source = CLOCKSRC_HSE then (HSE_FREQ * cfg.N / cfg.M / cfg.P) % 2 ^ 32
  else 0

/-! The machine state: RCC and FLASH registers plus the module's two
process-wide variables. -/

structure MCU where
  rcc_cr : Nat
  rcc_cfgr : Nat
  rcc_pllcfgr : Nat
  rcc_pllsaicfgr : Nat
  rcc_plli2scfgr : Nat
  flash_acr : Nat
  flash_cr : Nat
  systemCoreClock : Nat
  mainPLLConfigured : Nat
deriving DecidableEq, Repr

/-- WriteEv: one observable register write. -/
inductive WriteEv where
  | flashACR (v : Nat)
  | cfgr (v : Nat)
  | cr (v : Nat)
  | pllcfgr (v : Nat)
  | pllsaicfgr (v : Nat)
  | plli2scfgr (v : Nat)
deriving DecidableEq, Repr

/-- swsOf: the hardware mirrors the clock-switch selection SW into the
status field SWS once the switch completes; reads of SWS are modelled as
derived from the last value written to SW. -/
def swsOf (cfgr : Nat) : Nat := (cfgr &&& RCC_CFGR_SW) <<< 2

/-- SystemGetAHBPrescaler: decode HPRE through `hpre_table`. -/
def SystemGetAHBPrescaler (st : MCU) : Nat :=
  hpre_table.getD ((st.rcc_cfgr &&& RCC_CFGR_HPRE_Msk) >>> RCC_CFGR_HPRE_Pos) 0

/-- SystemGetAPB1Prescaler: decode PPRE1 through `ppre_table`. -/
def SystemGetAPB1Prescaler (st : MCU) : Nat :=
  ppre_table.getD ((st.rcc_cfgr &&& RCC_CFGR_PPRE1_Msk) >>> RCC_CFGR_PPRE1_Pos) 0

/-- SystemGetAPB2Prescaler: decode PPRE2 through `ppre_table`. -/
def SystemGetAPB2Prescaler (st : MCU) : Nat :=
  ppre_table.getD ((st.rcc_cfgr &&& RCC_CFGR_PPRE2_Msk) >>> RCC_CFGR_PPRE2_Pos) 0

/-- SystemGetSYSCLKFrequency from the C source: decode the active clock
source and, for the PLL, recompute its output from the PLLCFGR fields
(the P field is used raw, exactly as in the source). -/
def SystemGetSYSCLKFrequency (st : MCU) : Nat :=
  let src := swsOf st.rcc_cfgr
  if src = RCC_CFGR_SWS_HSI then HSI_FREQ
  else if src = RCC_CFGR_SWS_HSE then HSE_FREQ
  else if src = RCC_CFGR_SWS_PLL then
    let pllsrc :=
      if st.rcc_pllcfgr &&& RCC_PLLCFGR_PLLSRC = RCC_PLLCFGR_PLLSRC_HSI
      then CLOCKSRC_HSI else CLOCKSRC_HSE
    CalculateMainPLLOutFrequency
      { source := pllsrc
        M := (st.rcc_pllcfgr &&& RCC_PLLCFGR_PLLM) >>> RCC_PLLCFGR_PLLM_Pos
        N := (st.rcc_pllcfgr &&& RCC_PLLCFGR_PLLN) >>> RCC_PLLCFGR_PLLN_Pos
        P := (st.rcc_pllcfgr &&& RCC_PLLCFGR_PLLP) >>> RCC_PLLCFGR_PLLP_Pos
        Q := 0, R := 0 }
  else 0

/-- SystemGetCoreClock: SYSCLK divided by the AHB prescaler. -/
def SystemGetCoreClock (st : MCU) : Nat :=
  SystemGetSYSCLKFrequency st / SystemGetAHBPrescaler st

/-- SystemCoreClockUpdate: refresh the cached core-clock value from the
registers. -/
def SystemCoreClockUpdate (st : MCU) : MCU :=
  { st with systemCoreClock := SystemGetCoreClock st }

/-- SetFlashWaitStates from the C source.  As written, the source reads
`FLASH->CR` (not `FLASH->ACR`) as the base of the read-modify-write:
`FLASH->ACR = (FLASH->CR&~FLASH_ACR_LATENCY)|((n)<<FLASH_ACR_LATENCY_Pos)`. -/
def SetFlashWaitStates (n : Nat) (st : MCU) : MCU × List WriteEv :=
  let v := (st.flash_cr &&& NOT32 FLASH_ACR_LATENCY) ||| (n <<< FLASH_ACR_LATENCY_Pos)
  ({ st with flash_acr := v }, [WriteEv.flashACR v])

/-- ConfigureFlashWaitStates from the C source.  `ws` is a `uint32_t`
there, so the `ws < 0` test compares an unsigned value with zero; the
`-1` failure value becomes `0xFFFFFFFF`. -/
def ConfigureFlashWaitStates (freq voltage : Nat) (st : MCU) : MCU × List WriteEv :=
  let ws : Nat := ((FindFlashWaitStates freq voltage).emod (2 ^ 32)).toNat
  if ws < 0 then (st, [])
  else SetFlashWaitStates ws st

/-- apbPPRE: the encoding computed identically inside
`SystemSetAPB1Prescaler` and `SystemSetAPB2Prescaler`:
`p2 = SystemFindLargestPower2Exp(div); ppre = (p2==0) ? 0 : 4+p2-1`. -/
def apbPPRE (div : Nat) : Nat :=
  let p2 := SystemFindLargestPower2Exp div
  if p2 = 0 then 0 else 4 + p2 - 1

/-- SystemSetAPB1Prescaler from the C source: skip the write when the
resulting APB1 frequency would exceed 54 MHz, else program PPRE1. -/
def SystemSetAPB1Prescaler (div : Nat) (st : MCU) : MCU × List WriteEv :=
  if st.systemCoreClock / div > 54000000 then (st, [])
  else
    let v := (st.rcc_cfgr &&& NOT32 RCC_CFGR_PPRE1_Msk) |||
             (apbPPRE div <<< RCC_CFGR_PPRE1_Pos)
    ({ st with rcc_cfgr := v }, [WriteEv.cfgr v])

/-- SystemSetAPB2Prescaler from the C source.  As written, the guard
tests 54000000 (the same ceiling as APB1), although the function's own
comment documents the APB2 ceiling as 108 MHz. -/
def SystemSetAPB2Prescaler (div : Nat) (st : MCU) : MCU × List WriteEv :=
  if st.systemCoreClock / div > 54000000 then (st, [])
  else
    let v := (st.rcc_cfgr &&& NOT32 RCC_CFGR_PPRE2_Msk) |||
             (apbPPRE div <<< RCC_CFGR_PPRE2_Pos)
    ({ st with rcc_cfgr := v }, [WriteEv.cfgr v])

/-- SystemEnableHSI: set HSION and busy-wait for HSIRDY (immediate in the
quiescent hardware model). -/
def SystemEnableHSI (st : MCU) : MCU × List WriteEv :=
  let v := st.rcc_cr ||| RCC_CR_HSION
  ({ st with rcc_cr := v }, [WriteEv.cr v])

/-- SystemEnableHSE: the Discovery board uses an external oscillator, so
HSEON and HSEBYP are both set; busy-wait for HSERDY. -/
def SystemEnableHSE (st : MCU) : MCU × List WriteEv :=
  let v := st.rcc_cr ||| (RCC_CR_HSEON ||| RCC_CR_HSEBYP)
  ({ st with rcc_cr := v }, [WriteEv.cr v])

/-- SystemDisableMainPLL: clear PLLON. -/
def SystemDisableMainPLL (st : MCU) : MCU × List WriteEv :=
  let v := st.rcc_cr &&& NOT32 RCC_CR_PLLON
  ({ st with rcc_cr := v }, [WriteEv.cr v])

/-- SystemEnableMainPLL: set PLLON and busy-wait for PLLRDY. -/
def SystemEnableMainPLL (st : MCU) : MCU × List WriteEv :=
  let v := st.rcc_cr ||| RCC_CR_PLLON
  ({ st with rcc_cr := v }, [WriteEv.cr v])

/-- SystemConfigMainPLL from the C source.  The two CFGR writes in the
PLL-was-core-clock paths are reproduced as written in the source:
`RCC->CFGR = (RCC->CFGR&RCC_CFGR_SW)|RCC_CFGR_SW_HSI` and
`RCC->CFGR = (RCC->CFGR&RCC_CFGR_SW)|RCC_CFGR_SW_PLL`
(the mask is `RCC_CFGR_SW`, not its complement). -/
def SystemConfigMainPLL (cfg : PLLConfiguration) (st : MCU) : MCU × List WriteEv :=
  let pllwascoreclock := swsOf st.rcc_cfgr = RCC_CFGR_SWS_PLL
  let (st1, t1) :=
    if pllwascoreclock then
      let (a, ta) := SystemEnableHSI st
      let v := (a.rcc_cfgr &&& RCC_CFGR_SW) ||| RCC_CFGR_SW_HSI
      ({ a with rcc_cfgr := v }, ta ++ [WriteEv.cfgr v])
    else (st, [])
  let (st2, t2) := SystemDisableMainPLL st1
  if cfg.source = CLOCKSRC_HSI ∨ cfg.source = CLOCKSRC_HSE then
    let (st3, t3) :=
      if cfg.source = CLOCKSRC_HSI then SystemEnableHSI st2 else SystemEnableHSE st2
    let src := if cfg.source = CLOCKSRC_HSI then RCC_CFGR_SW_HSI else RCC_CFGR_SW_HSE
    let cleared := st3.rcc_pllcfgr &&&
      NOT32 (RCC_PLLCFGR_PLLM ||| RCC_PLLCFGR_PLLN ||| RCC_PLLCFGR_PLLP |||
             RCC_PLLCFGR_PLLQ ||| RCC_PLLCFGR_PLLSRC)
    let v := cleared |||
      (((cfg.M <<< RCC_PLLCFGR_PLLM_Pos) &&& RCC_PLLCFGR_PLLM) |||
       ((cfg.N <<< RCC_PLLCFGR_PLLN_Pos) &&& RCC_PLLCFGR_PLLN) |||
       ((cfg.P <<< RCC_PLLCFGR_PLLP_Pos) &&& RCC_PLLCFGR_PLLP) |||
       ((cfg.Q <<< RCC_PLLCFGR_PLLQ_Pos) &&& RCC_PLLCFGR_PLLQ) |||
       ((src <<< RCC_PLLCFGR_PLLSRC_Pos) &&& RCC_PLLCFGR_PLLSRC))
    let st4 := { st3 with rcc_pllcfgr := v }
    let (st5, t5) := SystemEnableMainPLL st4
    let st6 := { st5 with mainPLLConfigured := 1 }
    let (st7, t7) :=
      if pllwascoreclock then
        let w := (st6.rcc_cfgr &&& RCC_CFGR_SW) ||| RCC_CFGR_SW_PLL
        ({ st6 with rcc_cfgr := w }, [WriteEv.cfgr w])
      else (st6, [])
    (st7, t1 ++ t2 ++ t3 ++ [WriteEv.pllcfgr v] ++ t5 ++ t7)
  else (st2, t1 ++ t2)

/-- SystemConfigPLLSAI from the C source: refuses (returns without any
write) when the main PLL has never been configured. -/
def SystemConfigPLLSAI (cfg : PLLConfiguration) (st : MCU) : MCU × List WriteEv :=
  if st.mainPLLConfigured = 0 then (st, [])
  else
    let v1 := st.rcc_cr &&& NOT32 RCC_CR_PLLSAION
    let s1 : MCU := { st with rcc_cr := v1 }
    let cleared := s1.rcc_pllsaicfgr &&&
      NOT32 (RCC_PLLSAICFGR_PLLSAIN ||| RCC_PLLSAICFGR_PLLSAIP |||
             RCC_PLLSAICFGR_PLLSAIQ ||| RCC_PLLSAICFGR_PLLSAIR)
    let v2 := cleared |||
      (((cfg.N <<< RCC_PLLSAICFGR_PLLSAIN_Pos) &&& RCC_PLLSAICFGR_PLLSAIN) |||
       ((cfg.P <<< RCC_PLLSAICFGR_PLLSAIP_Pos) &&& RCC_PLLSAICFGR_PLLSAIP) |||
       ((cfg.Q <<< RCC_PLLSAICFGR_PLLSAIQ_Pos) &&& RCC_PLLSAICFGR_PLLSAIQ) |||
       ((cfg.R <<< RCC_PLLSAICFGR_PLLSAIR_Pos) &&& RCC_PLLSAICFGR_PLLSAIR))
    let s2 : MCU := { s1 with rcc_pllsaicfgr := v2 }
    let v3 := s2.rcc_cr ||| RCC_CR_PLLSAION
    let s3 : MCU := { s2 with rcc_cr := v3 }
    (s3, [WriteEv.cr v1, WriteEv.pllsaicfgr v2, WriteEv.cr v3])

/-- SystemConfigPLLI2S from the C source: same guard as the SAI PLL. -/
def SystemConfigPLLI2S (cfg : PLLConfiguration) (st : MCU) : MCU × List WriteEv :=
  if st.mainPLLConfigured = 0 then (st, [])
  else
    let v1 := st.rcc_cr &&& NOT32 RCC_CR_PLLI2SON
    let s1 : MCU := { st with rcc_cr := v1 }
    let cleared := s1.rcc_plli2scfgr &&&
      NOT32 (RCC_PLLI2SCFGR_PLLI2SN ||| RCC_PLLI2SCFGR_PLLI2SP |||
             RCC_PLLI2SCFGR_PLLI2SQ ||| RCC_PLLI2SCFGR_PLLI2SR)
    let v2 := cleared |||
      (((cfg.N <<< RCC_PLLI2SCFGR_PLLI2SN_Pos) &&& RCC_PLLI2SCFGR_PLLI2SN) |||
       ((cfg.P <<< RCC_PLLI2SCFGR_PLLI2SP_Pos) &&& RCC_PLLI2SCFGR_PLLI2SP) |||
       ((cfg.Q <<< RCC_PLLI2SCFGR_PLLI2SQ_Pos) &&& RCC_PLLI2SCFGR_PLLI2SQ) |||
       ((cfg.R <<< RCC_PLLI2SCFGR_PLLI2SR_Pos) &&& RCC_PLLI2SCFGR_PLLI2SR))
    let s2 : MCU := { s1 with rcc_plli2scfgr := v2 }
    let v3 := s2.rcc_cr ||| RCC_CR_PLLI2SON
    let s3 : MCU := { s2 with rcc_cr := v3 }
    (s3, [WriteEv.cr v1, WriteEv.plli2scfgr v2, WriteEv.cr v3])

/-- SystemSetCoreClock from the C source.  `newsrc` is compared with
`RCC->CFGR & RCC_CFGR_SW` exactly as in the source (the SW field, not
SWS).  The write trace records every register write in program order. -/
def SystemSetCoreClock (newsrc newdiv : Nat) (st : MCU) : MCU × List WriteEv :=
  let src := st.rcc_cfgr &&& RCC_CFGR_SW
  let ppre1 := SystemGetAPB1Prescaler st
  let ppre2 := SystemGetAPB2Prescaler st
  let (stA, tA) :=
    if newsrc = src then
      let hpre := (st.rcc_cfgr &&& RCC_CFGR_HPRE_Msk) >>> RCC_CFGR_HPRE_Pos
      let div := hpre_table.getD hpre 0
      let newhpre := FindHPRE newdiv
      let (s1, e1) :=
        if newdiv < div then
          let (a1, f1) := SetFlashWaitStates MAXWAITSTATES st
          let (a2, f2) := SystemSetAPB1Prescaler 4 a1
          let (a3, f3) := SystemSetAPB2Prescaler 2 a2
          (a3, f1 ++ f2 ++ f3)
        else (st, [])
      let v := (s1.rcc_cfgr &&& NOT32 RCC_CFGR_HPRE_Msk) ||| (newhpre <<< RCC_CFGR_HPRE_Pos)
      ({ s1 with rcc_cfgr := v }, e1 ++ [WriteEv.cfgr v])
    else
      let (s1, e1) := SetFlashWaitStates MAXWAITSTATES st
      let (s2, e2) := SystemSetAPB1Prescaler 4 s1
      let (s3, e3) := SystemSetAPB2Prescaler 2 s2
      let newhpre := FindHPRE newdiv
      let v := (s3.rcc_cfgr &&& NOT32 RCC_CFGR_HPRE_Msk) ||| (newhpre <<< RCC_CFGR_HPRE_Pos)
      let s4 : MCU := { s3 with rcc_cfgr := v }
      let (s5, e5) :=
        if newsrc = CLOCKSRC_HSI then
          let (u1, f1) := SystemEnableHSI s4
          let w := (u1.rcc_cfgr &&& NOT32 RCC_CFGR_SW) ||| RCC_CFGR_SW_HSI
          ({ u1 with rcc_cfgr := w }, f1 ++ [WriteEv.cfgr w])
        else if newsrc = CLOCKSRC_HSE then
          let (u1, f1) := SystemEnableHSE s4
          let w := (u1.rcc_cfgr &&& NOT32 RCC_CFGR_SW) ||| RCC_CFGR_SW_HSE
          ({ u1 with rcc_cfgr := w }, f1 ++ [WriteEv.cfgr w])
        else if newsrc = CLOCKSRC_PLL then
          let (u1, f1) :=
            if s4.mainPLLConfigured = 0 then
              let (w1, g1) := SystemSetAPB1Prescaler 4 s4
              let (w2, g2) := SystemSetAPB2Prescaler 2 w1
              let (w3, g3) := SystemConfigMainPLL ClockConfiguration200MHz w2
              (w3, g1 ++ g2 ++ g3)
            else (s4, [])
          let w := (u1.rcc_cfgr &&& NOT32 RCC_CFGR_SW) ||| RCC_CFGR_SW_PLL
          ({ u1 with rcc_cfgr := w }, f1 ++ [WriteEv.cfgr w])
        else (s4, [])
      (s5, e1 ++ e2 ++ e3 ++ [WriteEv.cfgr v] ++ e5)
  let stB := SystemCoreClockUpdate stA
  let (stC, tC) := ConfigureFlashWaitStates stB.systemCoreClock VSUPPLY stB
  let (stD, tD) := SystemSetAPB1Prescaler ppre1 stC
  let (stE, tE) := SystemSetAPB2Prescaler ppre2 stD
  (stE, tA ++ tC ++ tD ++ tE)

/-- SystemSetCoreClockFrequency_cfg: the PLL configuration
`SystemSetCoreClockFrequency` derives from the requested frequency
(clamped at `HCLKMAX`): HSE source, `M = HSE_FREQ/1000000`, `N = 2*freq`,
`P = 2`. -/
def SystemSetCoreClockFrequency_cfg (freq : Nat) : PLLConfiguration :=
  let f := if freq ≥ HCLKMAX then HCLKMAX else freq
  { source := CLOCKSRC_HSE, M := HSE_FREQ / 1000000, N := 2 * f, P := 2, Q := 2, R := 2 }

/-- SystemSetCoreClockFrequency from the C source: configure the main PLL
with the derived configuration, switch the core clock to the PLL with
divisor 1, and return the (clamped) requested frequency. -/
def SystemSetCoreClockFrequency (freq : Nat) (st : MCU) : (MCU × List WriteEv) × Nat :=
  let f := if freq ≥ HCLKMAX then HCLKMAX else freq
  let (s1, t1) := SystemConfigMainPLL (SystemSetCoreClockFrequency_cfg freq) st
  let (s2, t2) := SystemSetCoreClock CLOCKSRC_PLL 1 s1
  ((s2, t1 ++ t2), f)

/-- resetMCU: the reset-default register values (RCC reset state, locked
flash, HSI running at 16 MHz). -/
def resetMCU : MCU :=
  { rcc_cr := 0x83, rcc_cfgr := 0, rcc_pllcfgr := 0x24003010,
    rcc_pllsaicfgr := 0x24003000, rcc_plli2scfgr := 0x24003000,
    flash_acr := 0, flash_cr := 0x80000000,
    systemCoreClock := 16000000, mainPLLConfigured := 0 }

/-- stC1: a state with a distinctive flash ACR value (latency 5, ART and
prefetch bits set) used to observe writes on the lookup-failure path. -/
def stC1 : MCU := { resetMCU with flash_acr := 0x605 }

/-- scenarioHSI: the reset state of the end-to-end scenario: HSI selected
(SW = SWS = 0), AHB divisor 1, APB1 divisor 4 (PPRE1 = 5), APB2 divisor 2
(PPRE2 = 4), 16 MHz cached core clock, main PLL not configured. -/
def scenarioHSI : MCU := { resetMCU with rcc_cfgr := (5 <<< 10) ||| (4 <<< 13) }

/-- stC4: a state whose cached core clock is 200 MHz, with APB1 divisor 4
programmed and APB2 divisor 1 (PPRE2 = 0). -/
def stC4 : MCU := { resetMCU with systemCoreClock := 200000000, rcc_cfgr := (5 <<< 10) }

/-- stC5: a state in which the PLL drives the core clock (SW = 2, so the
mirrored SWS reads PLL), with AHB divisor 2 (HPRE = 8), APB1 divisor 4
(PPRE1 = 5), APB2 divisor 2 (PPRE2 = 4), and the main PLL configured. -/
def stC5 : MCU := { resetMCU with rcc_cfgr := 0x2 ||| (8 <<< 4) ||| (5 <<< 10) ||| (4 <<< 13), rcc_cr := 0x3070003, mainPLLConfigured := 1 }

/-- C1: `FindFlashWaitStates` does return the distinguishable failure
value `-1` when no frequency column matches, but `ConfigureFlashWaitStates`
does NOT leave the flash latency register unchanged on failure: its
`uint32_t ws` makes the `ws < 0` guard vacuous, so the `0xFFFFFFFF`
failure pattern is written into FLASH->ACR (latency field becomes 15,
every other ACR bit is set too).  This refutes the second half of the
claim at freq = 250, voltage = 3300 mV. -/
theorem claim_C1 :
    FindFlashWaitStates 250 VSUPPLY = -1 ∧
    stC1.flash_acr &&& FLASH_ACR_LATENCY = 5 ∧
    (ConfigureFlashWaitStates 250 VSUPPLY stC1).1.flash_acr = 0xFFFFFFFF ∧
    (ConfigureFlashWaitStates 250 VSUPPLY stC1).1.flash_acr ≠ stC1.flash_acr := by
  decide

/-- C2: in the end-to-end scenario (HSI at 16 MHz to the 200 MHz PLL
preset, AHB divisor 1) the worst-case latency write (value 9) does come
first and a latency write does come after the mux write, but the final
write is not the wait-state count computed for the resulting frequency:
the resulting 200000000 Hz is passed to a table whose entries are in MHz,
the lookup fails (`-1`), and the vacuous unsigned guard then writes the
all-ones pattern (latency 15) instead of the value 6 that the table gives
for 200 MHz at 3300 mV.  The full write trace is listed in program
order: the `flashACR 0x80000009` write precedes the mux write
(`cfgr 0x9402`, the write whose SW field selects the PLL), and the
post-mux latency write is `flashACR 0xFFFFFFFF`. -/
theorem claim_C2 :
    (SystemSetCoreClock CLOCKSRC_PLL 1 scenarioHSI).1.systemCoreClock = 200000000 ∧
    FindFlashWaitStates 200000000 VSUPPLY = -1 ∧
    FindFlashWaitStates 200 VSUPPLY = 6 ∧
    (SystemSetCoreClock CLOCKSRC_PLL 1 scenarioHSI).1.flash_acr &&& FLASH_ACR_LATENCY = 15 ∧
    (SystemSetCoreClock CLOCKSRC_PLL 1 scenarioHSI).2 =
      [WriteEv.flashACR 0x80000009, WriteEv.cfgr 0x9400, WriteEv.cfgr 0x9400,
       WriteEv.cfgr 0x9400, WriteEv.cfgr 0x9400, WriteEv.cfgr 0x9400,
       WriteEv.cr 0x83, WriteEv.cr 0x50083, WriteEv.pllcfgr 0x22426419,
       WriteEv.cr 0x1050083, WriteEv.cfgr 0x9402,
       WriteEv.flashACR 0xFFFFFFFF, WriteEv.cfgr 0x9402] := by
  decide

/-- C3: `FindHPRE` does return 0 for divisor ≤ 1 and 15 for divisor ≥ 512,
but for 1 < n < 512 it does not return the claimed encoding: the source
feeds the power-of-two VALUE from `SystemFindLargestPower2` into
arithmetic written for the EXPONENT.  At n = 2 it returns code 9
(decoding to divide-by-4) although code 8 (divide-by-2) is the closest
representable divisor ≥ 2; at n = 9 it returns 22, which is not even a
4-bit code. -/
theorem claim_C3 :
    FindHPRE 1 = 0 ∧ FindHPRE 512 = 15 ∧
    FindHPRE 2 = 9 ∧ hpre_table.getD (FindHPRE 2) 0 = 4 ∧
    SystemFindLargestPower2 2 = 2 ∧ hpre_table.getD 8 0 = 2 ∧
    FindHPRE 9 = 22 ∧ ¬ FindHPRE 9 < 16 := by
  decide

/-- C4: `SystemSetAPB2Prescaler` does not enforce a 108 MHz ceiling: the
source tests `SystemCoreClock/div > 54000000`, the same 54 MHz ceiling as
APB1.  At a 200 MHz core clock, requesting the APB2 divisor 2 (100 MHz,
legal per the claimed 108 MHz ceiling) is silently skipped: the state is
returned unchanged, no write occurs, and the decoded APB2 prescaler stays
at its previous divide-by-1 value. -/
theorem claim_C4 :
    stC4.systemCoreClock / 2 ≤ 108000000 ∧
    SystemSetAPB2Prescaler 2 stC4 = (stC4, []) ∧
    SystemGetAPB2Prescaler stC4 = 1 := by
  decide

/-- C5: when the PLL is the active clock source, `SystemConfigMainPLL`
is not a pure read-modify-write on CFGR: the source masks CFGR with
`RCC_CFGR_SW` instead of its complement in both mux writes, which clears
every CFGR bit outside SW — in particular HPRE and PPRE1 are lost
(and the mux is never actually moved to HSI, since the old SW bits are
kept).  Evaluated on a PLL-driven state with HPRE = 8 and PPRE1 = 5, both
fields differ after the call. -/
theorem claim_C5 :
    swsOf stC5.rcc_cfgr = RCC_CFGR_SWS_PLL ∧
    (SystemConfigMainPLL MainPLLConfiguration_200MHz stC5).1.rcc_cfgr &&& RCC_CFGR_HPRE_Msk ≠
      stC5.rcc_cfgr &&& RCC_CFGR_HPRE_Msk ∧
    (SystemConfigMainPLL MainPLLConfiguration_200MHz stC5).1.rcc_cfgr &&& RCC_CFGR_PPRE1_Msk ≠
      stC5.rcc_cfgr &&& RCC_CFGR_PPRE1_Msk ∧
    (SystemConfigMainPLL MainPLLConfiguration_200MHz stC5).1.rcc_cfgr &&& RCC_CFGR_SW =
      RCC_CFGR_SW_PLL := by
  decide

/-- C6: `SystemCheckPLLConfiguration` does not return 0 exactly on the
claimed ranges, and its failure codes are not distinct per field: the N
range test reads `M > 432` instead of `N > 432`, so a configuration with
N = 433 (out of range) and small M is accepted with 0; and both the Q
test and the R test return `-4`, so those two violations are
indistinguishable. -/
theorem claim_C6 :
    SystemCheckPLLConfiguration ⟨CLOCKSRC_HSE, 5, 433, 2, 2, 0⟩ = 0 ∧
    ¬ ((433 : Nat) ≥ 50 ∧ (433 : Nat) ≤ 432) ∧
    SystemCheckPLLConfiguration ⟨CLOCKSRC_HSE, 5, 100, 2, 20, 0⟩ = -4 ∧
    SystemCheckPLLConfiguration ⟨CLOCKSRC_HSE, 5, 100, 2, 2, 10⟩ = -4 := by
  decide

/-- C7: `SystemSetCoreClockFrequency` multiplies the frequency in Hz by
two to obtain N (`N = 2*freq`), so for the 200 MHz request the derived
configuration has N = 400000000, far outside [50, 432], and its computed
main-PLL output frequency is not the clamped request; the function still
returns the clamped frequency. -/
theorem claim_C7 :
    (SystemSetCoreClockFrequency_cfg 200000000).N = 400000000 ∧
    ¬ (SystemSetCoreClockFrequency_cfg 200000000).N ≤ 432 ∧
    CalculateMainPLLOutFrequency (SystemSetCoreClockFrequency_cfg 200000000) ≠ 200000000 ∧
    (SystemSetCoreClockFrequency 200000000 resetMCU).2 = 200000000 := by
  decide

/-- C9: if the main-PLL-configured flag has never been set, both
`SystemConfigPLLSAI` and `SystemConfigPLLI2S` return the state unchanged
and perform no register write at all. -/
theorem claim_C9 (st : MCU) (cfg : PLLConfiguration) (h : st.mainPLLConfigured = 0) :
    SystemConfigPLLSAI cfg st = (st, []) ∧ SystemConfigPLLI2S cfg st = (st, []) := by
  constructor
  · unfold SystemConfigPLLSAI
    rw [if_pos h]
  · unfold SystemConfigPLLI2S
    rw [if_pos h]

/-- C9 witness: at the reset state (flag 0) both auxiliary-PLL
configuration calls are no-ops. -/
theorem claim_C9_witness :
    SystemConfigPLLSAI MainPLLConfiguration_200MHz resetMCU = (resetMCU, []) ∧
    SystemConfigPLLI2S MainPLLConfiguration_200MHz resetMCU = (resetMCU, []) :=
  claim_C9 resetMCU MainPLLConfiguration_200MHz (by decide)

/-! Helper lemmas for the wait-state monotonicity claim. -/

/-- findJ is antitone in the threshold list position: a larger frequency
can only stop at the same or a later index. -/
theorem findJ_mono : ∀ (l : List Nat) (f1 f2 : Nat), f1 ≤ f2 → ∀ j2 : Nat,
    findJ l f2 = some j2 → ∃ j1 : Nat, findJ l f1 = some j1 ∧ j1 ≤ j2 := by
  intro l
  induction l with
  | nil => intro f1 f2 _ j2 h; simp [findJ] at h
  | cons x xs ih =>
    intro f1 f2 hf j2 h2
    by_cases hx : x = 0
    · simp [findJ, hx] at h2
    · by_cases h2x : f2 > x
      · simp only [findJ, if_neg hx, if_pos h2x] at h2
        obtain ⟨j2p, hj2p, hjeq⟩ := Option.map_eq_some'.mp h2
        by_cases h1x : f1 > x
        · obtain ⟨j1p, hj1p, hle⟩ := ih f1 f2 hf j2p hj2p
          refine ⟨j1p + 1, ?_, by omega⟩
          simp only [findJ, if_neg hx, if_pos h1x, hj1p]
          rfl
        · refine ⟨0, ?_, by omega⟩
          simp only [findJ, if_neg hx, if_neg h1x]
      · have h1x : ¬ f1 > x := by omega
        simp only [findJ, if_neg hx, if_neg h2x] at h2
        refine ⟨0, ?_, by omega⟩
        simp only [findJ, if_neg hx, if_neg h1x]

/-- rowLeB h l: every nonzero threshold of the higher-voltage row `h`
dominates the corresponding threshold of the lower-voltage row `l`. -/
def rowLeB : List Nat → List Nat → Bool
  | [], [] => true
  | hx :: hs, lx :: ls => (hx == 0 || decide (lx ≤ hx)) && rowLeB hs ls
  | _, _ => false

/-- When the higher-voltage row dominates pointwise (on its nonzero
entries), its stopping index is ≤ the lower-voltage row's. -/
theorem findJ_rowLe : ∀ (h l : List Nat), rowLeB h l = true → ∀ (freq kh kl : Nat),
    findJ h freq = some kh → findJ l freq = some kl → kh ≤ kl := by
  intro h
  induction h with
  | nil => intro l _ freq kh kl hh _; simp [findJ] at hh
  | cons y hs ih =>
    intro l hrel freq kh kl hh hl
    cases l with
    | nil => simp [rowLeB] at hrel
    | cons x ls =>
      simp only [rowLeB, Bool.and_eq_true, Bool.or_eq_true, beq_iff_eq,
        decide_eq_true_eq] at hrel
      obtain ⟨hor, hrest⟩ := hrel
      by_cases hy : y = 0
      · simp [findJ, hy] at hh
      · have hxy : x ≤ y := by
          rcases hor with h0 | hle
          · exact absurd h0 hy
          · exact hle
        by_cases hx : x = 0
        · simp [findJ, hx] at hl
        · by_cases hfy : freq > y
          · have hfx : freq > x := by omega
            simp only [findJ, if_neg hy, if_pos hfy] at hh
            simp only [findJ, if_neg hx, if_pos hfx] at hl
            obtain ⟨khp, hkhp, hkh⟩ := Option.map_eq_some'.mp hh
            obtain ⟨klp, hklp, hkl⟩ := Option.map_eq_some'.mp hl
            have := ih ls hrest freq khp klp hkhp hklp
            omega
          · simp only [findJ, if_neg hy, if_neg hfy] at hh
            have : (0 : Nat) = kh := Option.some.inj hh
            omega

/-- findRow on the concrete wait-state table selects the row by voltage
interval. -/
theorem findRow_eq (v : Nat) :
    findRow flashwaitstates_tab v =
      if 2700 ≤ v then some row2700
      else if 2400 ≤ v then some row2400
      else if 2100 ≤ v then some row2100
      else if 1800 ≤ v then some row1800
      else none := by
  simp only [flashwaitstates_tab, findRow]
  norm_num
  split_ifs <;> first | rfl | omega

/-- A lookup whose row selection fails returns -1. -/
theorem FFWS_row_none (freq v : Nat) (hr : findRow flashwaitstates_tab v = none) :
    FindFlashWaitStates freq v = -1 := by
  unfold FindFlashWaitStates
  rw [hr]

/-- A lookup whose row selection succeeds is the index search on that
row. -/
theorem FFWS_row_some (freq v : Nat) (r : List Nat)
    (hr : findRow flashwaitstates_tab v = some r) :
    FindFlashWaitStates freq v =
      (match findJ r freq with
       | none => (-1 : Int)
       | some j => (j : Int)) := by
  unfold FindFlashWaitStates
  rw [hr]

/-- A successful lookup decomposes into a row selection and an index
search. -/
theorem FFWS_succ (freq v : Nat) (h : 0 ≤ FindFlashWaitStates freq v) :
    ∃ r k, findRow flashwaitstates_tab v = some r ∧ findJ r freq = some k ∧
      FindFlashWaitStates freq v = (k : Int) := by
  cases hr : findRow flashwaitstates_tab v with
  | none =>
    have hneg : FindFlashWaitStates freq v = -1 := FFWS_row_none freq v hr
    rw [hneg] at h
    norm_num at h
  | some r =>
    have hgoal := FFWS_row_some freq v r hr
    cases hj : findJ r freq with
    | none =>
      rw [hj] at hgoal
      have hneg : FindFlashWaitStates freq v = -1 := hgoal
      rw [hneg] at h
      norm_num at h
    | some k =>
      rw [hj] at hgoal
      exact ⟨r, k, rfl, hj, hgoal⟩

/-- C8: for a fixed voltage, successful wait-state lookups are
non-decreasing in the frequency; for a fixed frequency, successful
lookups are non-increasing in the voltage. -/
theorem claim_C8 :
    (∀ voltage f1 f2 : Nat, f1 ≤ f2 →
      0 ≤ FindFlashWaitStates f1 voltage → 0 ≤ FindFlashWaitStates f2 voltage →
      FindFlashWaitStates f1 voltage ≤ FindFlashWaitStates f2 voltage) ∧
    (∀ freq v1 v2 : Nat, v1 ≤ v2 →
      0 ≤ FindFlashWaitStates freq v1 → 0 ≤ FindFlashWaitStates freq v2 →
      FindFlashWaitStates freq v2 ≤ FindFlashWaitStates freq v1) := by
  constructor
  · intro voltage f1 f2 hf h1 h2
    obtain ⟨r1, k1, hr1, hk1, he1⟩ := FFWS_succ f1 voltage h1
    obtain ⟨r2, k2, hr2, hk2, he2⟩ := FFWS_succ f2 voltage h2
    have hrr : r1 = r2 := by
      rw [hr1] at hr2
      exact Option.some.inj hr2
    subst hrr
    obtain ⟨j1, hj1, hle⟩ := findJ_mono r1 f1 f2 hf k2 hk2
    have hjk : j1 = k1 := by
      rw [hj1] at hk1
      exact Option.some.inj hk1
    rw [he1, he2]
    have hnat : k1 ≤ k2 := by omega
    exact_mod_cast hnat
  · intro freq v1 v2 hv h1 h2
    obtain ⟨r1, k1, hr1, hk1, he1⟩ := FFWS_succ freq v1 h1
    obtain ⟨r2, k2, hr2, hk2, he2⟩ := FFWS_succ freq v2 h2
    rw [he1, he2]
    have hk : k2 ≤ k1 := by
      rw [findRow_eq] at hr1 hr2
      split_ifs at hr1 hr2
      all_goals first
        | omega
        | exact Option.noConfusion hr1
        | exact Option.noConfusion hr2
        | (have e1 := Option.some.inj hr1
           have e2 := Option.some.inj hr2
           subst e1
           subst e2
           exact findJ_rowLe _ _ (by decide) freq k2 k1 hk2 hk1)
    exact_mod_cast hk

/-- C8 witness: concrete instances of both monotonicity directions
(100 vs 200 MHz at 3300 mV; 1900 vs 2500 mV at 100 MHz). -/
theorem claim_C8_witness :
    FindFlashWaitStates 100 3300 ≤ FindFlashWaitStates 200 3300 ∧
    FindFlashWaitStates 100 2500 ≤ FindFlashWaitStates 100 1900 :=
  ⟨claim_C8.1 3300 100 200 (by norm_num) (by decide) (by decide),
   claim_C8.2 100 1900 2500 (by norm_num) (by decide) (by decide)⟩

/-! Helper lemmas for the APB prescaler encoding claim. -/

/-- Writing a `w`-bit field value `v` at bit position `pos` with the
module's read-modify-write pattern and reading the field back yields `v`,
for any prior register contents. -/
theorem insert_extract (reg v pos w : Nat) (hv : v < 2 ^ w) (hw : pos + w ≤ 32) :
    (((reg &&& NOT32 ((2 ^ w - 1) <<< pos)) ||| (v <<< pos)) &&&
      ((2 ^ w - 1) <<< pos)) >>> pos = v := by
  have h32 : NOT32 ((2 ^ w - 1) <<< pos) = (2 ^ 32 - 1) ^^^ ((2 ^ w - 1) <<< pos) := by
    unfold NOT32
    norm_num
  rw [h32]
  apply Nat.eq_of_testBit_eq
  intro i
  simp only [Nat.testBit_shiftRight, Nat.testBit_and, Nat.testBit_or, Nat.testBit_xor,
    Nat.testBit_shiftLeft, Nat.testBit_two_pow_sub_one]
  by_cases hiw : i < w
  · have e2 : pos + i - pos = i := by omega
    have e3 : pos + i < 32 := by omega
    simp [e2, hiw, e3, ge_iff_le, Nat.le_add_right]
  · have hvw : v < 2 ^ i :=
      lt_of_lt_of_le hv (Nat.pow_le_pow_right (by norm_num) (by omega))
    have e4 : v.testBit i = false := Nat.testBit_lt_two_pow hvw
    have e2 : pos + i - pos = i := by omega
    simp [e2, hiw, e4]

/-- apbPPRE stays a 3-bit code for divisors up to 16. -/
theorem apbPPRE_lt (div : Nat) (h : div ≤ 16) : apbPPRE div < 8 := by
  interval_cases div <;> decide

/-- Reading the APB1 prescaler after a non-skipped `SystemSetAPB1Prescaler`
decodes the `apbPPRE` encoding. -/
theorem apb1_set_get (st : MCU) (div : Nat)
    (hng : ¬ st.systemCoreClock / div > 54000000) (henc : apbPPRE div < 8) :
    SystemGetAPB1Prescaler (SystemSetAPB1Prescaler div st).1 =
      ppre_table.getD (apbPPRE div) 0 := by
  unfold SystemSetAPB1Prescaler
  rw [if_neg hng]
  show ppre_table.getD
      ((((st.rcc_cfgr &&& NOT32 RCC_CFGR_PPRE1_Msk) |||
         (apbPPRE div <<< RCC_CFGR_PPRE1_Pos)) &&& RCC_CFGR_PPRE1_Msk) >>>
        RCC_CFGR_PPRE1_Pos) 0 = _
  rw [show RCC_CFGR_PPRE1_Msk = (2 ^ 3 - 1) <<< RCC_CFGR_PPRE1_Pos from by decide]
  rw [insert_extract st.rcc_cfgr (apbPPRE div) RCC_CFGR_PPRE1_Pos 3 henc (by decide)]

/-- Reading the APB2 prescaler after a non-skipped `SystemSetAPB2Prescaler`
decodes the `apbPPRE` encoding. -/
theorem apb2_set_get (st : MCU) (div : Nat)
    (hng : ¬ st.systemCoreClock / div > 54000000) (henc : apbPPRE div < 8) :
    SystemGetAPB2Prescaler (SystemSetAPB2Prescaler div st).1 =
      ppre_table.getD (apbPPRE div) 0 := by
  unfold SystemSetAPB2Prescaler
  rw [if_neg hng]
  show ppre_table.getD
      ((((st.rcc_cfgr &&& NOT32 RCC_CFGR_PPRE2_Msk) |||
         (apbPPRE div <<< RCC_CFGR_PPRE2_Pos)) &&& RCC_CFGR_PPRE2_Msk) >>>
        RCC_CFGR_PPRE2_Pos) 0 = _
  rw [show RCC_CFGR_PPRE2_Msk = (2 ^ 3 - 1) <<< RCC_CFGR_PPRE2_Pos from by decide]
  rw [insert_extract st.rcc_cfgr (apbPPRE div) RCC_CFGR_PPRE2_Pos 3 henc (by decide)]

/-- An exponent `k` with `2 ^ k < 2 * d` is minimal among exponents whose
power of two reaches `d`. -/
theorem pow2_min_aux (d k : Nat) (hd : 2 ^ k < 2 * d) :
    ∀ j : Nat, d ≤ 2 ^ j → k ≤ j := by
  intro j hj
  by_contra hlt
  push_neg at hlt
  have h1 : j + 1 ≤ k := hlt
  have h2 : (2 : Nat) ^ (j + 1) ≤ 2 ^ k := Nat.pow_le_pow_right (by norm_num) h1
  have h3 : (2 : Nat) ^ (j + 1) = 2 * 2 ^ j := by ring
  omega

/-- C10: for every divisor 1 ≤ div ≤ 16 that passes the frequency-ceiling
guard, both APB prescaler setters program a field that decodes (through
`ppre_table`) to the smallest power of two that is ≥ div (1 when
div ≤ 1), so a non-power-of-two request is rounded up, never down. -/
theorem claim_C10 (st : MCU) (div : Nat) (h1 : 1 ≤ div) (h16 : div ≤ 16)
    (hg : st.systemCoreClock / div ≤ 54000000) :
    ∃ k : Nat,
      SystemGetAPB1Prescaler (SystemSetAPB1Prescaler div st).1 = 2 ^ k ∧
      SystemGetAPB2Prescaler (SystemSetAPB2Prescaler div st).1 = 2 ^ k ∧
      div ≤ 2 ^ k ∧ (∀ j : Nat, div ≤ 2 ^ j → k ≤ j) := by
  have hng : ¬ st.systemCoreClock / div > 54000000 := by omega
  have e1 := apb1_set_get st div hng (apbPPRE_lt div h16)
  have e2 := apb2_set_get st div hng (apbPPRE_lt div h16)
  refine ⟨SystemFindLargestPower2Exp div, ?_, ?_, ?_, pow2_min_aux div _ ?_⟩
  · rw [e1]
    interval_cases div <;> decide
  · rw [e2]
    interval_cases div <;> decide
  · interval_cases div <;> decide
  · interval_cases div <;> decide

/-- C10 witness: divisor 3 at the reset state (16 MHz core clock) rounds
up to the divide-by-4 encoding on both buses. -/
theorem claim_C10_witness :
    ∃ k : Nat,
      SystemGetAPB1Prescaler (SystemSetAPB1Prescaler 3 resetMCU).1 = 2 ^ k ∧
      SystemGetAPB2Prescaler (SystemSetAPB2Prescaler 3 resetMCU).1 = 2 ^ k ∧
      3 ≤ 2 ^ k ∧ (∀ j : Nat, 3 ≤ 2 ^ j → k ≤ j) :=
  claim_C10 resetMCU 3 (by norm_num) (by norm_num) (by decide)
